import Mathlib

/-
Shallow embedding of the hal-steam-tools Tauri plugin (src/lib.rs,
src/workshop.rs, src/filesystem.rs).

The vendor steamworks SDK is modelled as an environment: `SDK.submit`
is the outcome of `client.ugc().query_item(id)` at submission time
(`some err` when the SDK rejects the query, `none` when the query is
registered), and `SDK.complete` is the value the SDK later hands to the
registered completion callback (`Except.error` for a transport error,
`Except.ok info` for a delivered result page). Tauri, logging and the
filesystem are likewise modelled at their interface boundary.
-/

namespace HalSteamTools

/-- Mirrors `struct WokrshopItem` of src/workshop.rs (id, name, optional
description, optional preview URL). -/
structure WokrshopItem where
  id : Nat
  name : String
  description : Option String
  preview : Option String
deriving DecidableEq

/-- Mirrors `struct LocalWorkshopItem` of src/workshop.rs; the path is kept
as the string the SDK reported. -/
structure LocalWorkshopItem where
  id : Nat
  path : String
  size_on_disk : Nat
deriving DecidableEq

/-- One result record of a UGC query, as read by the callbacks:
`published_file_id`, `title`, `description`. -/
structure ItemRecord where
  published_file_id : Nat
  title : String
  description : String
deriving DecidableEq

/-- The `QueryResults` page a completion callback receives. The code only
ever reads index 0, so the model keeps the record list (index 0 is its
head) and the preview URL at index 0. -/
structure QueryInfo where
  records : List ItemRecord
  previewUrl0 : Option String
deriving DecidableEq

/-- Environment model of the SDK for a single query id: the submission
outcome of `query_item` and the completion value later passed to the
callback registered by `fetch`. -/
structure SDK where
  submit : Nat → Option String
  complete : Nat → Except String QueryInfo

/-- Mirrors `info.get(0).map(|item| WokrshopItem { .. })` in both
callbacks: build the descriptor from the record at index 0, if any. -/
def itemAt0 (info : QueryInfo) : Option WokrshopItem :=
  info.records.head?.map fun item =>
    { id := item.published_file_id
      name := item.title
      description := some item.description
      preview := info.previewUrl0 }

/-- The completion callback of `get_workshop_item` (src/workshop.rs),
reduced to the value it stores in the PendingRequest slot: transport
error string, `"item is null"` when the page has no record, or the
descriptor. -/
def get_workshop_item_fetch (x : Except String QueryInfo) :
    Except String WokrshopItem :=
  match x with
  | Except.error err => Except.error err
  | Except.ok info =>
    match itemAt0 info with
    | none => Except.error "item is null"
    | some item => Except.ok item

/-- The slot writes the `get_workshop_item` completion callback performs, in
source order: each of its three branches assigns `*condvar.0.lock() = Some(..)`
exactly once and then returns. -/
def get_workshop_item_fetch_writes (x : Except String QueryInfo) :
    List (Except String WokrshopItem) :=
  match x with
  | Except.error err => [Except.error err]
  | Except.ok info =>
    match itemAt0 info with
    | none => [Except.error "item is null"]
    | some item => [Except.ok item]

/-- A PendingRequest result slot:
`Mutex<Option<Result<WokrshopItem, String>>>`. -/
abbrev Slot : Type := Option (Except String WokrshopItem)

/-- Replay a list of slot assignments (each one is `*slot = Some(v)`). -/
def applyWrites (s : Slot) (ws : List (Except String WokrshopItem)) : Slot :=
  ws.foldl (fun _ w => some w) s

/-- The `get_workshop_item` Tauri command (src/workshop.rs): lock the
client, submit the query, then block until the completion callback fills
the slot and return its value. `lockOk = false` is a poisoned client
lock. -/
def get_workshop_item (sdk : SDK) (lockOk : Bool) (id : Nat) :
    Except String WokrshopItem :=
  if lockOk then
    match sdk.submit id with
    | some err => Except.error ("Cannot query item: " ++ err)
    | none => get_workshop_item_fetch (sdk.complete id)
  else
    Except.error "client is null"

/-- Rust `str::parse::<u64>()`: optional leading plus sign, then one or
more ASCII digits, value below 2^64; anything else fails. -/
def parseU64 (s : String) : Option Nat :=
  let ds :=
    match s.toList with
    | '+' :: rest => rest
    | cs => cs
  if ds.isEmpty then none
  else if ds.all Char.isDigit then
    let n := ds.foldl (fun a c => a * 10 + (c.toNat - 48)) 0
    if n < 2 ^ 64 then some n else none
  else none

/-- The completion callback of `need_workshop_item`, reduced to the event
it emits: `none` when extraction fails (transport error or empty page,
both logged), `some item` when `got-wokrshop-item` is emitted. -/
def need_workshop_item_callback (x : Except String QueryInfo) :
    Option WokrshopItem :=
  match x with
  | Except.error _ => none
  | Except.ok info =>
    let item := itemAt0 info
    if item.isNone then none else item

/-- Emissions and diagnostics of one run of the relay completion callback:
a successful extraction emits the item, a failed one logs once. -/
def relayCallbackEffect (x : Except String QueryInfo) :
    List WokrshopItem × Nat :=
  match need_workshop_item_callback x with
  | some item => ([item], 0)
  | none => ([], 1)

/-- Observable outcome of one `need_workshop_item` invocation: the
outbound `got-wokrshop-item` events, the number of diagnostics logged,
and whether `query_item` was reached. -/
structure RelayRun where
  emitted : List WokrshopItem
  logs : Nat
  queryCalled : Bool
deriving DecidableEq

/-- The `need_workshop_item` event handler (src/workshop.rs): a missing
payload, an unparsable payload, or a poisoned client lock logs once and
stops before `query_item`; a submission error logs once; otherwise the
completion callback decides emission. -/
def need_workshop_item (lockOk : Bool) (sdk : SDK) (payload : Option String) :
    RelayRun :=
  match payload with
  | none => ⟨[], 1, false⟩
  | some p =>
    match parseU64 p with
    | none => ⟨[], 1, false⟩
    | some id =>
      if lockOk then
        match sdk.submit id with
        | some _err => ⟨[], 1, true⟩
        | none =>
          let eff := relayCallbackEffect (sdk.complete id)
          ⟨eff.1, eff.2, true⟩
      else ⟨[], 1, false⟩

/-! Slot-store run model of `get_workshop_item`.

Each call starts with `Arc::new((Mutex::new(None), Condvar::new()))`: a
fresh slot, allocated before the client lock is taken. The store records
every slot ever allocated so that freshness and non-aliasing across
calls are expressible. -/

/-- Heap of PendingRequest slots; allocation appends, so a slot index is
its position of allocation. -/
structure SlotStore where
  slots : List Slot

/-- Allocate a fresh empty slot, returning its index. -/
def allocSlot (st : SlotStore) : Nat × SlotStore :=
  (st.slots.length, ⟨st.slots ++ [none]⟩)

/-- Fill slot `i` (the callback assignment `*slot = Some(v)`). -/
def writeSlot (st : SlotStore) (i : Nat) (v : Except String WokrshopItem) :
    SlotStore :=
  ⟨st.slots.set i (some v)⟩

/-- Read slot `i`; `none` also when the index does not exist. -/
def readSlot (st : SlotStore) (i : Nat) : Slot :=
  (st.slots.get? i).getD none

/-- Outcome of one `get_workshop_item` call in the slot-store model.
`result = none` means the caller is still blocked on the condition
variable (its slot was never filled). `queries` lists the ids passed to
`query_item` during the call. -/
structure RunResult where
  result : Option (Except String WokrshopItem)
  store : SlotStore
  slotIdx : Nat
  queries : List Nat

/-- One `get_workshop_item` call against an explicit slot store: allocate
a fresh slot, submit, let the completion callback fill that slot, wake
when it is non-empty and return its content. -/
def get_workshop_item_run (sdk : SDK) (lockOk : Bool) (id : Nat)
    (st : SlotStore) : RunResult :=
  let a := allocSlot st
  if lockOk then
    match sdk.submit id with
    | some err =>
      ⟨some (Except.error ("Cannot query item: " ++ err)), a.2, a.1, [id]⟩
    | none =>
      let st2 := writeSlot a.2 a.1 (get_workshop_item_fetch (sdk.complete id))
      ⟨readSlot st2 a.1, st2, a.1, [id]⟩
  else
    ⟨some (Except.error "client is null"), a.2, a.1, []⟩

/-! Local content scanner `get_subscribed_workshop_items`. -/

/-- Result of the scanner: the Rust function returns a plain `Vec`, so
any failure path is a panic, not an error value. -/
inductive ScanOutcome where
  | panicked (msg : String)
  | returned (items : List LocalWorkshopItem)
deriving DecidableEq

/-- Install info of one item, as read from `item_install_info`. -/
structure InstallInfo where
  folder : String
  size_on_disk : Nat
deriving DecidableEq

/-- Environment model of the UGC local-state interface: subscribed ids,
the `ItemState` bitmask of each id, and its install info when
retrievable. -/
structure UGCLocal where
  subscribed : List Nat
  item_state : Nat → Nat
  item_install_info : Nat → Option InstallInfo

/-- The `ItemState::INSTALLED` bitflag of the steamworks crate. -/
def INSTALLED : Nat := 4

/-- Bitflags `contains`: every bit of `f` is set in `s`. -/
def stateContains (s f : Nat) : Bool := s &&& f == f

/-- The per-item pairing loop
`local_items.iter().map(|x| (x, item_install_info(x).unwrap()))`:
`none` is the unwrap panic at the first item with no install info. -/
def collectInstallInfo (ugc : UGCLocal) :
    List Nat → Option (List (Nat × InstallInfo))
  | [] => some []
  | x :: rest =>
    match ugc.item_install_info x with
    | none => none
    | some info => (collectInstallInfo ugc rest).map (fun l => (x, info) :: l)

/-- `get_subscribed_workshop_items` (src/workshop.rs): panic on a
poisoned client lock, keep subscribed ids whose state contains
INSTALLED, pair each with its install info (unwrap panics when missing),
and build the `LocalWorkshopItem`s. -/
def get_subscribed_workshop_items (lockOk : Bool) (ugc : UGCLocal) :
    ScanOutcome :=
  if lockOk then
    let local_items :=
      ugc.subscribed.filter fun item => stateContains (ugc.item_state item) INSTALLED
    match collectInstallInfo ugc local_items with
    | none => ScanOutcome.panicked "called Option::unwrap() on a None value"
    | some pairs =>
      ScanOutcome.returned (pairs.map fun p =>
        { id := p.1, path := p.2.folder, size_on_disk := p.2.size_on_disk })
  else
    ScanOutcome.panicked "client is null"

/-! Install-path locator `get_hoi_folder` (src/filesystem.rs). -/

/-- Regex character class `\s` (ASCII whitespace of the regex crate). -/
def isWspace (c : Char) : Bool :=
  c == ' ' || c == '\t' || c == '\n' || c == '\r' ||
  c == '\x0c' || c == '\x0b'

/-- Lazy quoted capture, the `(.+?)"` tail of the pattern: the shortest
run of one or more characters (any character except a newline, quotes
included) that is followed by a closing double quote. -/
def lazyCap : List Char → Option (List Char)
  | [] => none
  | c :: rest =>
    if c == '\n' then none
    else
      match rest with
      | '"' :: _ => some [c]
      | _ => (lazyCap rest).map (fun t => c :: t)

/-- Literal-prefix test for the fixed pattern pieces. -/
def startsWithLit : List Char → List Char → Bool
  | [], _ => true
  | _ :: _, [] => false
  | p :: ps, c :: cs => p == c && startsWithLit ps cs

/-- Attempt of the pattern `installdir"\s+"(.+?)"\n?` at one position:
the literal `installdir"`, one or more whitespace characters, an opening
quote, then the lazy capture. The trailing optional newline never
constrains a match. -/
def matchInstalldirAt (s : List Char) : Option (List Char) :=
  let lit := "installdir\"".toList
  if startsWithLit lit s then
    let r1 := s.drop lit.length
    let ws := r1.takeWhile isWspace
    if ws.isEmpty then none
    else
      match r1.drop ws.length with
      | '"' :: r3 => lazyCap r3
      | _ => none
  else none

/-- Leftmost match of the pattern over the whole content:
`captures_iter(..).next()` takes the first position, scanning left to
right, at which the pattern matches, and yields capture group 1. -/
def findInstalldir : List Char → Option (List Char)
  | [] => none
  | c :: rest =>
    match matchInstalldirAt (c :: rest) with
    | some cap => some cap
    | none => findInstalldir rest

/-- Filesystem environment of the locator: whether
`SteamDir::locate()` succeeds, the library folder paths, and the
`is_file` / `read_to_string` / `is_dir` answers. Paths are joined with a
slash. -/
structure FS where
  steamDirFound : Bool
  libraryPaths : List String
  isFile : String → Bool
  readFile : String → String
  isDir : String → Bool

/-- Path join of the model. -/
def pathJoin (a b : String) : String := a ++ "/" ++ b

/-- The manifest file name `format!("appmanifest_{}.acf", 394360)`. -/
def manifestName : String := "appmanifest_394360.acf"

/-- The per-library loop of `get_hoi_folder`: the first library whose
manifest file exists decides the outcome (no installdir capture, missing
directory, or success); remaining libraries are not consulted. -/
def hoiLoop (fs : FS) : List String → Except String String
  | [] => Except.error "Could not find hoi directory"
  | folder :: rest =>
    if fs.isFile (pathJoin folder manifestName) then
      match findInstalldir (fs.readFile (pathJoin folder manifestName)).toList with
      | none => Except.error "Could not find installdir"
      | some p =>
        if fs.isDir (pathJoin (pathJoin folder "common") (String.mk p)) then
          Except.ok (pathJoin (pathJoin folder "common") (String.mk p))
        else Except.error "Could not find hoi directory"
    else hoiLoop fs rest

/-- `get_hoi_folder` (src/filesystem.rs): locate the steam directory,
then scan the library folders for `appmanifest_394360.acf`. -/
def get_hoi_folder (fs : FS) : Except String String :=
  if fs.steamDirFound then hoiLoop fs fs.libraryPaths
  else Except.error "Could not find steam directory"

/-! Concrete environments used to exercise the definitions. -/

/-- A record as the SDK would return it for a query of id 1337. -/
def exRecord : ItemRecord := ⟨1337, "Example Mod", ""⟩

/-- A one-record result page for `exRecord`, with no preview URL. -/
def exInfo : QueryInfo := ⟨[exRecord], none⟩

/-- An SDK that accepts every submission and completes every query with
`exInfo`. -/
def exSDK : SDK := ⟨fun _ => none, fun _ => Except.ok exInfo⟩

/-- An SDK holding a record whose id is 0, used on the relay path. -/
def zeroSDK : SDK :=
  ⟨fun _ => none, fun _ => Except.ok ⟨[⟨0, "Zero", ""⟩], none⟩⟩

/-- An SDK that completes queries with an empty result page. -/
def emptySDK : SDK := ⟨fun _ => none, fun _ => Except.ok ⟨[], some "u"⟩⟩

/-- Local UGC state: ids 10 and 12 carry the INSTALLED bit, id 11 does
not; install info is retrievable everywhere. -/
def exUGC : UGCLocal :=
  ⟨[10, 11, 12],
   fun i => if i == 11 then 1 else 5,
   fun _ => some ⟨"folder", 100⟩⟩

/-- Local UGC state whose single subscribed id is INSTALLED but has no
retrievable install info. -/
def badUGC : UGCLocal := ⟨[7], fun _ => 4, fun _ => none⟩

/-- Filesystem with one library whose manifest uses the spec wording
`installdir "ExampleGame"` (no quote directly after `installdir`); every
path exists. -/
def unquotedFS : FS :=
  ⟨true, ["L"],
   fun _ => true,
   fun _ => "installdir \"ExampleGame\"\n",
   fun _ => true⟩

/-- Filesystem with one library whose manifest uses the on-disk acf form
`\"installdir\" \"ExampleGame\"`; every path exists. -/
def quotedFS : FS :=
  ⟨true, ["L"],
   fun _ => true,
   fun _ => "\"installdir\" \"ExampleGame\"\n",
   fun _ => true⟩

/-! Helper lemmas. -/

/-- A descriptor built from a result page always carries
`description = some ..`. -/
lemma itemAt0_description (info : QueryInfo) (d : WokrshopItem)
    (h : itemAt0 info = some d) : d.description ≠ none := by
  unfold itemAt0 at h
  cases hr : info.records.head? with
  | none => rw [hr] at h; simp at h
  | some r =>
    rw [hr] at h
    simp only [Option.map_some', Option.some.injEq] at h
    rw [← h]
    simp

/-- A successful slot value comes from the record at index 0 of a
delivered page. -/
lemma fetch_ok_itemAt0 (x : Except String QueryInfo) (d : WokrshopItem)
    (h : get_workshop_item_fetch x = Except.ok d) :
    ∃ info, x = Except.ok info ∧ itemAt0 info = some d := by
  cases x with
  | error e => simp [get_workshop_item_fetch] at h
  | ok info =>
    refine ⟨info, rfl, ?_⟩
    cases hi : itemAt0 info with
    | none => simp [get_workshop_item_fetch, hi] at h
    | some it => simp [get_workshop_item_fetch, hi] at h; rw [h]

/-- An emitted relay descriptor comes from the record at index 0 of a
delivered page. -/
lemma relay_cb_itemAt0 (x : Except String QueryInfo) (d : WokrshopItem)
    (h : need_workshop_item_callback x = some d) :
    ∃ info, x = Except.ok info ∧ itemAt0 info = some d := by
  cases x with
  | error e => simp [need_workshop_item_callback] at h
  | ok info =>
    refine ⟨info, rfl, ?_⟩
    cases hi : itemAt0 info with
    | none => simp [need_workshop_item_callback, hi] at h
    | some it => simp [need_workshop_item_callback, hi] at h; rw [h]

/-- Every descriptor the relay emits was produced by its completion
callback. -/
lemma relay_emitted_from_callback (lockOk : Bool) (sdk : SDK)
    (payload : Option String) (d : WokrshopItem)
    (h : d ∈ (need_workshop_item lockOk sdk payload).emitted) :
    ∃ x, need_workshop_item_callback x = some d := by
  cases payload with
  | none => simp [need_workshop_item] at h
  | some p =>
    cases hp : parseU64 p with
    | none => simp [need_workshop_item, hp] at h
    | some id =>
      cases lockOk with
      | false => simp [need_workshop_item, hp] at h
      | true =>
        cases hs : sdk.submit id with
        | some e => simp [need_workshop_item, hp, hs] at h
        | none =>
          cases hc : need_workshop_item_callback (sdk.complete id) with
          | none =>
            simp [need_workshop_item, hp, hs, relayCallbackEffect, hc] at h
          | some it =>
            simp [need_workshop_item, hp, hs, relayCallbackEffect, hc] at h
            exact ⟨sdk.complete id, by rw [hc, h]⟩

/-! Claim theorems. -/

/-- Claim C2: for every SDK completion value reaching the waiting phase, the
`get_workshop_item` completion callback performs exactly one slot write
(one of its three branches), the PendingRequest slot goes from empty to
filled with exactly that value, and the blocked caller returns exactly
that value. -/
theorem pending_slot_filled_once (x : Except String QueryInfo) :
    get_workshop_item_fetch_writes x = [get_workshop_item_fetch x] ∧
    applyWrites none (get_workshop_item_fetch_writes x) =
      some (get_workshop_item_fetch x) ∧
    ∀ (sdk : SDK) (id : Nat), sdk.submit id = none → sdk.complete id = x →
      get_workshop_item sdk true id = get_workshop_item_fetch x := by
  have hw : get_workshop_item_fetch_writes x = [get_workshop_item_fetch x] := by
    cases x with
    | error e => rfl
    | ok info =>
      cases h : itemAt0 info <;>
        simp [get_workshop_item_fetch_writes, get_workshop_item_fetch, h]
  refine ⟨hw, by rw [hw]; rfl, ?_⟩
  intro sdk id hs hc
  simp [get_workshop_item, hs, hc]

/-- Claim C2 witness: a concrete run observing the single fill. -/
theorem pending_slot_filled_once_witness :
    get_workshop_item exSDK true 1337 =
      get_workshop_item_fetch (Except.ok exInfo) :=
  (pending_slot_filled_once (Except.ok exInfo)).2.2 exSDK 1337 rfl rfl

/-- Claim C6: the relay completion callback applies the same extraction as the
blocking completion callback — it is its success projection: same
descriptor on success, nothing published (one diagnostic, no outbound
event) exactly when the blocking callback would fill an error. -/
theorem relay_callback_refines_fetch (x : Except String QueryInfo) :
    need_workshop_item_callback x = (get_workshop_item_fetch x).toOption ∧
    ((get_workshop_item_fetch x).isOk = false →
      relayCallbackEffect x = ([], 1)) ∧
    ∀ d, get_workshop_item_fetch x = Except.ok d →
      relayCallbackEffect x = ([d], 0) := by
  cases x with
  | error e =>
    refine ⟨rfl, fun _ => rfl, ?_⟩
    intro d hd
    simp [get_workshop_item_fetch] at hd
  | ok info =>
    cases h : itemAt0 info with
    | none =>
      refine ⟨?_, fun _ => ?_, ?_⟩
      · simp [need_workshop_item_callback, get_workshop_item_fetch, h,
          Except.toOption]
      · simp [relayCallbackEffect, need_workshop_item_callback, h]
      · intro d hd
        simp [get_workshop_item_fetch, h] at hd
    | some it =>
      refine ⟨?_, ?_, ?_⟩
      · simp [need_workshop_item_callback, get_workshop_item_fetch, h,
          Except.toOption]
      · intro hk
        simp [get_workshop_item_fetch, h, Except.isOk, Except.toBool] at hk
      · intro d hd
        simp [get_workshop_item_fetch, h] at hd
        simp [relayCallbackEffect, need_workshop_item_callback, h, hd]

/-- Claim C6 witness: a transport error is not republished and logs once. -/
theorem relay_callback_refines_fetch_witness :
    relayCallbackEffect (Except.error "net") = ([], 1) :=
  (relay_callback_refines_fetch (Except.error "net")).2.1 rfl

/-- Claim C9: every descriptor either surface ever returns or emits has a
non-null description (the field is optional in the data model, but both
constructors wrap the record description in `Some`). -/
theorem descriptor_description_always_some :
    (∀ (sdk : SDK) (lockOk : Bool) (id : Nat) (d : WokrshopItem),
      get_workshop_item sdk lockOk id = Except.ok d →
        d.description ≠ none) ∧
    ∀ (lockOk : Bool) (sdk : SDK) (payload : Option String)
      (d : WokrshopItem),
      d ∈ (need_workshop_item lockOk sdk payload).emitted →
        d.description ≠ none := by
  constructor
  · intro sdk lockOk id d h
    cases lockOk with
    | false => simp [get_workshop_item] at h
    | true =>
      cases hs : sdk.submit id with
      | some e => simp [get_workshop_item, hs] at h
      | none =>
        simp [get_workshop_item, hs] at h
        obtain ⟨info, _, hi⟩ := fetch_ok_itemAt0 _ _ h
        exact itemAt0_description info d hi
  · intro lockOk sdk payload d h
    obtain ⟨x, hx⟩ := relay_emitted_from_callback lockOk sdk payload d h
    obtain ⟨info, _, hi⟩ := relay_cb_itemAt0 _ _ hx
    exact itemAt0_description info d hi

/-- Claim C9 witness: the descriptor built from a record with empty description
carries `some ""`, not `none`. -/
theorem descriptor_description_always_some_witness :
    ∃ d : WokrshopItem, get_workshop_item exSDK true 1337 = Except.ok d ∧
      d.description ≠ none :=
  ⟨⟨1337, "Example Mod", some "", none⟩, rfl,
    descriptor_description_always_some.1 exSDK true 1337 _ rfl⟩

/-- Claim C1: for every valid positive 64-bit id, provided the SDK answers a
query for an id with records of that id, `get_workshop_item` returns
either an error or a descriptor whose id equals the input — never a
mismatched descriptor. -/
theorem fetchItem_id_matches (sdk : SDK) (lockOk : Bool) (id : Nat)
    (hpos : 0 < id) (hlt : id < 2 ^ 64)
    (hsdk : ∀ info r, sdk.complete id = Except.ok info →
      info.records.head? = some r → r.published_file_id = id) :
    (∃ e, get_workshop_item sdk lockOk id = Except.error e) ∨
    ∃ d, get_workshop_item sdk lockOk id = Except.ok d ∧ d.id = id := by
  cases lockOk with
  | false => exact Or.inl ⟨"client is null", rfl⟩
  | true =>
    cases hs : sdk.submit id with
    | some err =>
      exact Or.inl ⟨"Cannot query item: " ++ err, by
        simp [get_workshop_item, hs]⟩
    | none =>
      have hg : get_workshop_item sdk true id =
          get_workshop_item_fetch (sdk.complete id) := by
        simp [get_workshop_item, hs]
      cases hc : sdk.complete id with
      | error e => exact Or.inl ⟨e, by rw [hg, hc]; rfl⟩
      | ok info =>
        cases hr : info.records.head? with
        | none =>
          refine Or.inl ⟨"item is null", ?_⟩
          rw [hg, hc]
          simp [get_workshop_item_fetch, itemAt0, hr]
        | some r =>
          refine Or.inr
            ⟨⟨r.published_file_id, r.title, some r.description,
              info.previewUrl0⟩, ?_, hsdk info r hc hr⟩
          rw [hg, hc]
          simp [get_workshop_item_fetch, itemAt0, hr]

/-- Claim C1 witness: a concrete well-behaved SDK and the id 1337. -/
theorem fetchItem_id_matches_witness :
    (∃ e, get_workshop_item exSDK true 1337 = Except.error e) ∨
    ∃ d, get_workshop_item exSDK true 1337 = Except.ok d ∧ d.id = 1337 :=
  fetchItem_id_matches exSDK true 1337 (by decide) (by decide)
    (by
      intro info r h1 h2
      have hinfo : exInfo = info := by
        simpa [exSDK] using h1
      subst hinfo
      have hr : exRecord = r := by
        simpa [exInfo] using h2
      subst hr
      rfl)

/-- Claim C4 counterexample: the payload `"0"` parses as a u64, so the relay
does submit an SDK query, logs nothing, and (with a record delivered)
emits an outbound event — it is not discarded. -/
theorem relay_zero_payload_counterexample :
    (need_workshop_item true zeroSDK (some "0")).queryCalled = true ∧
    (need_workshop_item true zeroSDK (some "0")).logs = 0 ∧
    (need_workshop_item true zeroSDK (some "0")).emitted =
      [⟨0, "Zero", some "", none⟩] := by
  refine ⟨rfl, rfl, rfl⟩

/-- Claim C4 amended: an absent payload, or a payload that does not parse as a
64-bit unsigned integer (such as `"abc"`), is logged once and discarded:
no outbound event, no SDK query. The payload `"0"` parses and is not
discarded. -/
theorem relay_malformed_payload_discarded :
    (∀ (lockOk : Bool) (sdk : SDK),
      need_workshop_item lockOk sdk none = ⟨[], 1, false⟩) ∧
    (∀ (lockOk : Bool) (sdk : SDK) (p : String), parseU64 p = none →
      need_workshop_item lockOk sdk (some p) = ⟨[], 1, false⟩) ∧
    parseU64 "abc" = none := by
  refine ⟨fun _ _ => rfl, ?_, by decide⟩
  intro lockOk sdk p hp
  simp [need_workshop_item, hp]

/-- Claim C4 witness: the non-numeric payload of the spec example. -/
theorem relay_malformed_payload_discarded_witness :
    need_workshop_item true zeroSDK (some "abc") = ⟨[], 1, false⟩ :=
  relay_malformed_payload_discarded.2.1 true zeroSDK "abc" (by decide)

/-- The retained-id projection of the pairing loop: when no unwrap
panics, the paired list carries exactly the retained ids in order. -/
lemma collectInstallInfo_fst (ugc : UGCLocal) :
    ∀ (xs : List Nat) (pairs : List (Nat × InstallInfo)),
      collectInstallInfo ugc xs = some pairs →
        pairs.map Prod.fst = xs := by
  intro xs
  induction xs with
  | nil =>
    intro pairs h
    simp [collectInstallInfo] at h
    rw [h]
    rfl
  | cons x rest ih =>
    intro pairs h
    cases hi : ugc.item_install_info x with
    | none => simp [collectInstallInfo, hi] at h
    | some info =>
      cases hr : collectInstallInfo ugc rest with
      | none => simp [collectInstallInfo, hi, hr] at h
      | some ps =>
        simp [collectInstallInfo, hi, hr] at h
        rw [← h]
        simp [ih ps hr]

/-- The pairing loop panics as soon as some retained id has no install
info. -/
lemma collectInstallInfo_none (ugc : UGCLocal) :
    ∀ (xs : List Nat) (x : Nat), x ∈ xs →
      ugc.item_install_info x = none →
        collectInstallInfo ugc xs = none := by
  intro xs
  induction xs with
  | nil => intro x h; simp at h
  | cons y rest ih =>
    intro x hmem hnone
    cases hy : ugc.item_install_info y with
    | none => simp [collectInstallInfo, hy]
    | some info =>
      have hx : x ∈ rest := by
        rcases List.mem_cons.mp hmem with he | h
        · rw [he, hy] at hnone; cases hnone
        · exact h
      simp [collectInstallInfo, hy, ih x hx hnone]

/-- Claim C5: whenever the scanner returns, the returned items are exactly one
per subscribed id whose install-state bitmask contains INSTALLED, in
subscription order; every other subscribed id is excluded. -/
theorem scanner_returns_installed_filter (lockOk : Bool) (ugc : UGCLocal)
    (items : List LocalWorkshopItem)
    (h : get_subscribed_workshop_items lockOk ugc =
      ScanOutcome.returned items) :
    items.map (fun it => it.id) =
      ugc.subscribed.filter
        (fun item => stateContains (ugc.item_state item) INSTALLED) := by
  cases lockOk with
  | false => simp [get_subscribed_workshop_items] at h
  | true =>
    cases hc : collectInstallInfo ugc
        (ugc.subscribed.filter
          (fun item => stateContains (ugc.item_state item) INSTALLED)) with
    | none => simp [get_subscribed_workshop_items, hc] at h
    | some pairs =>
      simp [get_subscribed_workshop_items, hc] at h
      rw [← h, ← collectInstallInfo_fst ugc _ pairs hc]
      simp

/-- Claim C5 witness: ids 10 and 12 are installed, id 11 is excluded. -/
theorem scanner_returns_installed_filter_witness :
    ([⟨10, "folder", 100⟩, ⟨12, "folder", 100⟩] :
        List LocalWorkshopItem).map (fun it => it.id) =
      exUGC.subscribed.filter
        (fun item => stateContains (exUGC.item_state item) INSTALLED) :=
  scanner_returns_installed_filter true exUGC
    [⟨10, "folder", 100⟩, ⟨12, "folder", 100⟩] (by decide)

/-- Claim C7: a subscribed id marked INSTALLED whose install info is not
retrievable makes the baseline scanner panic (the unwrap), never
silently skip the item. -/
theorem scanner_missing_install_info_panics (ugc : UGCLocal) (x : Nat)
    (hmem : x ∈ ugc.subscribed)
    (hinst : stateContains (ugc.item_state x) INSTALLED = true)
    (hnone : ugc.item_install_info x = none) :
    get_subscribed_workshop_items true ugc =
      ScanOutcome.panicked "called Option::unwrap() on a None value" := by
  have hx : x ∈ ugc.subscribed.filter
      (fun item => stateContains (ugc.item_state item) INSTALLED) :=
    List.mem_filter.mpr ⟨hmem, hinst⟩
  simp [get_subscribed_workshop_items,
    collectInstallInfo_none ugc _ x hx hnone]

/-- Claim C7 witness: one installed subscribed id with no install info. -/
theorem scanner_missing_install_info_panics_witness :
    get_subscribed_workshop_items true badUGC =
      ScanOutcome.panicked "called Option::unwrap() on a None value" :=
  scanner_missing_install_info_panics badUGC 7 (by decide) (by decide) rfl

/-- Claim C10: a poisoned client lock makes the scanner panic with the message
"client is null"; it never surfaces as a returned value, empty or not. -/
theorem scanner_poisoned_lock_panics (ugc : UGCLocal) :
    get_subscribed_workshop_items false ugc =
      ScanOutcome.panicked "client is null" ∧
    ∀ items, get_subscribed_workshop_items false ugc ≠
      ScanOutcome.returned items := by
  refine ⟨rfl, ?_⟩
  intro items h
  simp [get_subscribed_workshop_items] at h

/-- Reading back the slot just set, at a valid index. -/
lemma get?_set_self {α : Type} :
    ∀ (l : List α) (i : Nat) (a : α), i < l.length →
      (l.set i a).get? i = some a := by
  intro l
  induction l with
  | nil => intro i a h; simp at h
  | cons x xs ih =>
    intro i a h
    cases i with
    | zero => rfl
    | succ n => exact ih n a (Nat.lt_of_succ_lt_succ h)

/-- The slot a call allocates is the next free index. -/
lemma run_slotIdx (sdk : SDK) (lockOk : Bool) (id : Nat) (st : SlotStore) :
    (get_workshop_item_run sdk lockOk id st).slotIdx = st.slots.length := by
  cases lockOk with
  | false => rfl
  | true =>
    cases hs : sdk.submit id with
    | some e => simp [get_workshop_item_run, allocSlot, hs]
    | none => simp [get_workshop_item_run, allocSlot, writeSlot, hs]

/-- Every call grows the store by exactly its own fresh slot. -/
lemma run_store_length (sdk : SDK) (lockOk : Bool) (id : Nat)
    (st : SlotStore) :
    (get_workshop_item_run sdk lockOk id st).store.slots.length =
      st.slots.length + 1 := by
  cases lockOk with
  | false => simp [get_workshop_item_run, allocSlot]
  | true =>
    cases hs : sdk.submit id with
    | some e => simp [get_workshop_item_run, allocSlot, hs]
    | none => simp [get_workshop_item_run, allocSlot, writeSlot, hs]

/-- The slot-store run of a call terminates with exactly the value of the
pure call: the caller is not left blocked and reads its own fill. -/
lemma run_result_eq (sdk : SDK) (id : Nat) (st : SlotStore) :
    (get_workshop_item_run sdk true id st).result =
      some (get_workshop_item sdk true id) := by
  cases hs : sdk.submit id with
  | some e => simp [get_workshop_item_run, get_workshop_item, allocSlot, hs]
  | none =>
    have hlt : st.slots.length < (st.slots ++ [(none : Slot)]).length := by
      simp
    simp [get_workshop_item_run, get_workshop_item, allocSlot, writeSlot,
      readSlot, hs, get?_set_self _ _ _ hlt]

/-- Each call submits its query exactly once. -/
lemma run_queries (sdk : SDK) (id : Nat) (st : SlotStore) :
    (get_workshop_item_run sdk true id st).queries = [id] := by
  cases hs : sdk.submit id with
  | some e => simp [get_workshop_item_run, allocSlot, hs]
  | none => simp [get_workshop_item_run, allocSlot, writeSlot, hs]

/-- Claim C8: two back-to-back calls with the same id allocate distinct fresh
slots, each submits its own SDK query (two queries in total), and each
caller observes exactly the pure outcome of its own SDK interaction —
nothing of one call's slot is visible in the other's result. -/
theorem fresh_slot_per_call (sdk1 sdk2 : SDK) (id : Nat) (st0 : SlotStore) :
    (get_workshop_item_run sdk1 true id st0).slotIdx ≠
      (get_workshop_item_run sdk2 true id
        (get_workshop_item_run sdk1 true id st0).store).slotIdx ∧
    (get_workshop_item_run sdk1 true id st0).result =
      some (get_workshop_item sdk1 true id) ∧
    (get_workshop_item_run sdk2 true id
        (get_workshop_item_run sdk1 true id st0).store).result =
      some (get_workshop_item sdk2 true id) ∧
    (get_workshop_item_run sdk1 true id st0).queries ++
      (get_workshop_item_run sdk2 true id
        (get_workshop_item_run sdk1 true id st0).store).queries =
      [id, id] := by
  refine ⟨?_, run_result_eq sdk1 id st0, run_result_eq sdk2 id _, ?_⟩
  · rw [run_slotIdx, run_slotIdx, run_store_length]
    omega
  · rw [run_queries, run_queries]
    rfl

/-- Claim C8 witness: two concrete calls whose SDKs answer differently, so the
two independent queries legitimately return different results. -/
theorem fresh_slot_per_call_witness :
    ((get_workshop_item_run exSDK true 1337 ⟨[]⟩).slotIdx ≠
      (get_workshop_item_run emptySDK true 1337
        (get_workshop_item_run exSDK true 1337 ⟨[]⟩).store).slotIdx ∧
    (get_workshop_item_run exSDK true 1337 ⟨[]⟩).result =
      some (get_workshop_item exSDK true 1337) ∧
    (get_workshop_item_run emptySDK true 1337
        (get_workshop_item_run exSDK true 1337 ⟨[]⟩).store).result =
      some (get_workshop_item emptySDK true 1337) ∧
    (get_workshop_item_run exSDK true 1337 ⟨[]⟩).queries ++
      (get_workshop_item_run emptySDK true 1337
        (get_workshop_item_run exSDK true 1337 ⟨[]⟩).store).queries =
      [1337, 1337]) ∧
    get_workshop_item exSDK true 1337 ≠ get_workshop_item emptySDK true 1337 :=
  ⟨fresh_slot_per_call exSDK emptySDK 1337 ⟨[]⟩, by
    intro h
    simpa [get_workshop_item, exSDK, emptySDK, get_workshop_item_fetch,
      exInfo, itemAt0] using h⟩

/-- Claim C3 counterexample: with the exact manifest content of the claim,
`installdir "ExampleGame"` followed by a newline, the pattern
`installdir"\s+"(.+?)"` finds no capture (it needs a double quote
directly after `installdir`), so the locator fails with
"Could not find installdir" even though every directory exists — it does
not return the joined path. -/
theorem hoi_locator_unquoted_counterexample :
    get_hoi_folder unquotedFS = Except.error "Could not find installdir" ∧
    get_hoi_folder unquotedFS ≠
      Except.ok (pathJoin (pathJoin "L" "common") "ExampleGame") := by
  have he : get_hoi_folder unquotedFS =
      Except.error "Could not find installdir" := rfl
  refine ⟨he, ?_⟩
  intro h
  rw [he] at h
  exact Except.noConfusion h

/-- The manifest-less tail of the library scan. -/
lemma hoiLoop_no_manifest (fs : FS) :
    ∀ l : List String,
      (∀ p ∈ l, fs.isFile (pathJoin p manifestName) = false) →
        hoiLoop fs l = Except.error "Could not find hoi directory" := by
  intro l
  induction l with
  | nil => intro _; rfl
  | cons folder rest ih =>
    intro h
    have hf := h folder (List.mem_cons_self folder rest)
    simp [hoiLoop, hf]
    exact ih fun p hp => h p (List.mem_cons_of_mem folder hp)

/-- Claim C3 amended: the manifest line must use the on-disk form with a double
quote directly after `installdir` — content
`"installdir" "ExampleGame"` followed by a newline. Then, when the
directory `<library>/common/ExampleGame` exists the locator returns that
joined path; when that directory does not exist, and when no manifest
exists across any known library root, it fails with the NotFound error
"Could not find hoi directory". -/
theorem hoi_locator_quoted_installdir (fs : FS) (lib : String)
    (h0 : fs.steamDirFound = true)
    (h1 : fs.libraryPaths = [lib])
    (h2 : fs.isFile (pathJoin lib manifestName) = true)
    (h3 : fs.readFile (pathJoin lib manifestName) =
      "\"installdir\" \"ExampleGame\"\n") :
    (fs.isDir (pathJoin (pathJoin lib "common") "ExampleGame") = true →
      get_hoi_folder fs =
        Except.ok (pathJoin (pathJoin lib "common") "ExampleGame")) ∧
    (fs.isDir (pathJoin (pathJoin lib "common") "ExampleGame") = false →
      get_hoi_folder fs =
        Except.error "Could not find hoi directory") ∧
    ∀ fs2 : FS, fs2.steamDirFound = true →
      (∀ p ∈ fs2.libraryPaths,
        fs2.isFile (pathJoin p manifestName) = false) →
      get_hoi_folder fs2 =
        Except.error "Could not find hoi directory" := by
  have hcap : findInstalldir
      ("\"installdir\" \"ExampleGame\"\n").toList =
      some ("ExampleGame").toList := by decide
  have hmk : String.mk ("ExampleGame").toList = "ExampleGame" := rfl
  have hbody : ∀ b : Bool,
      fs.isDir (pathJoin (pathJoin lib "common") "ExampleGame") = b →
      get_hoi_folder fs =
        (if b then
          Except.ok (pathJoin (pathJoin lib "common") "ExampleGame")
        else Except.error "Could not find hoi directory") := by
    intro b hb
    simp only [get_hoi_folder, h0, if_true, h1, hoiLoop, h2, h3, hcap,
      hmk, hb]
  refine ⟨fun hd => ?_, fun hd => ?_, ?_⟩
  · rw [hbody true hd]; rfl
  · rw [hbody false hd]; rfl
  · intro fs2 h20 h2none
    unfold get_hoi_folder
    rw [h20, if_pos rfl]
    exact hoiLoop_no_manifest fs2 fs2.libraryPaths h2none

/-- Claim C3 witness: a concrete filesystem with the quoted manifest line and
an existing game directory; and the same filesystem read as having no
manifest anywhere yields NotFound. -/
theorem hoi_locator_quoted_installdir_witness :
    get_hoi_folder quotedFS =
      Except.ok (pathJoin (pathJoin "L" "common") "ExampleGame") :=
  (hoi_locator_quoted_installdir quotedFS "L" rfl rfl rfl rfl).1 rfl

end HalSteamTools
